import Mathlib

/-!
Shallow embedding of the trading-signal job pipeline
(`src/functions/signal-analysis.ts`, `src/lib/gemini.ts`,
`src/lib/lunarcrush.ts`).

Modelling conventions:
* JS numbers that are counts are `Nat`; ranking scores are `Int`.
* Fallible external calls (HTTP fetch, DB insert, AI call) are passed in
  as `Except Unit _` capabilities; a thrown JS exception is `.error ()`.
* Timestamp fields (`created_at`, `updated_at`, `timestamp`) and log
  output are not modelled: no claim concerns them.
* `step.run` memoization and retries are not modelled; a run is the
  straight-line sequence of step bodies.
-/

namespace SignalAnalysis

/-- `TopCoin` from `src/lib/lunarcrush.ts` (fields the pipeline reads). -/
structure TopCoin where
  symbol : String
  altRank : Int
  galaxyScore : Int
  deriving DecidableEq, Repr

/-- `SocialMetrics` from `src/types/trading` as built by `getSocialMetrics`. -/
structure SocialMetrics where
  symbol : String
  mentions : Nat
  interactions : Nat
  creators : Nat
  altRank : Int
  galaxyScore : Int
  deriving DecidableEq, Repr

/-- The `data` object of a LunarCrush topic response
(`TopicResponse.data` in `src/lib/lunarcrush.ts`); each counter may be
absent (`undefined` in TS, handled there by `|| 0`). -/
structure TopicData where
  num_posts : Option Nat
  interactions_24h : Option Nat
  num_contributors : Option Nat
  deriving DecidableEq, Repr

/-- The record `fetchTopicData` resolves with. -/
structure TopicCounts where
  num_posts : Nat
  interactions_24h : Nat
  num_contributors : Nat
  deriving DecidableEq, Repr

/-- `fetchTopicData` (`src/lib/lunarcrush.ts` lines 120-158).
`response` is the outcome of `makeRequest`: `.error ()` is a thrown
network/HTTP/timeout error, `.ok none` a response whose `data` object is
missing (the code throws on it inside its own `try`).  Every failure is
caught by the function's own `catch`, which returns all zeros. -/
def fetchTopicData (response : Except Unit (Option TopicData)) : TopicCounts :=
  match response with
  | .ok (some d) =>
      { num_posts := d.num_posts.getD 0
        interactions_24h := d.interactions_24h.getD 0
        num_contributors := d.num_contributors.getD 0 }
  | .ok none => { num_posts := 0, interactions_24h := 0, num_contributors := 0 }
  | .error _ => { num_posts := 0, interactions_24h := 0, num_contributors := 0 }

/-- `getSocialMetrics` (`src/lib/lunarcrush.ts` lines 87-115): combines the
pre-fetched coin data with the topic counts; since `fetchTopicData` never
throws, the surrounding `try`/rethrow never fires and the function is total. -/
def getSocialMetrics (coin : TopCoin)
    (topicResponse : Except Unit (Option TopicData)) : SocialMetrics :=
  let t := fetchTopicData topicResponse
  { symbol := coin.symbol
    mentions := t.num_posts
    interactions := t.interactions_24h
    creators := t.num_contributors
    altRank := coin.altRank
    galaxyScore := coin.galaxyScore }

/-- The completeness predicate of the `select-and-fetch-data` step
(`signal-analysis.ts` line 125): at least one counter strictly positive. -/
def isComplete (m : SocialMetrics) : Bool :=
  m.mentions > 0 || m.interactions > 0 || m.creators > 0

/-- An element pushed onto `results` in the selection loop
(`signal-analysis.ts` line 131). -/
structure SelectedCoin where
  symbol : String
  metrics : SocialMetrics
  success : Bool
  deriving DecidableEq, Repr

/-- The two fatal errors the `select-and-fetch-data` step can throw. -/
inductive SelectError where
  | noCandidates
  | insufficientData
  deriving DecidableEq, Repr

/-- The candidate loop of `select-and-fetch-data`
(`signal-analysis.ts` lines 109-138): iterate in input order, break once
3 results are accumulated, skip a candidate whose fetch throws
(the `catch` branch) and a candidate whose metrics are all-zero. -/
def selectLoop (fetch : TopCoin → Except Unit SocialMetrics) :
    List TopCoin → List SelectedCoin → List SelectedCoin
  | [], results => results
  | coin :: rest, results =>
    if 3 ≤ results.length then results
    else
      match fetch coin with
      | .error _ => selectLoop fetch rest results
      | .ok metrics =>
        if isComplete metrics then
          selectLoop fetch rest
            (results ++ [{ symbol := coin.symbol, metrics := metrics, success := true }])
        else
          selectLoop fetch rest results

/-- The `select-and-fetch-data` step (`signal-analysis.ts` lines 89-155):
throws `NoCandidatesError` on an empty candidate list, runs the selection
loop, throws `InsufficientDataError` when it selected nothing. -/
def selectAndFetchData (fetch : TopCoin → Except Unit SocialMetrics)
    (candidateCoins : List TopCoin) : Except SelectError (List SelectedCoin) :=
  if candidateCoins.length = 0 then
    .error .noCandidates
  else
    let results := selectLoop fetch candidateCoins []
    if results.length = 0 then .error .insufficientData
    else .ok results

/-- The three decision classes of `src/lib/gemini.ts`. -/
inductive SignalType where
  | BUY
  | SELL
  | HOLD
  deriving DecidableEq, Repr

/-- `TradingSignal` from `src/types/trading` (the `createdAt` timestamp is
not modelled; `now` feeds the `Date.now()` part of the id). -/
structure TradingSignal where
  id : String
  symbol : String
  signal : SignalType
  confidence : Nat
  reasoning : String
  metrics : SocialMetrics
  deriving DecidableEq, Repr

/-- The count of positive indicators in `createFallbackSignal`
(`src/lib/gemini.ts` lines 125-136).  `isHighEngagement` is
`interactions / max(mentions, 1) > 100`, stated over the integers as
`interactions > 100 * max mentions 1` (equivalent for a positive divisor). -/
def positiveSignals (metrics : SocialMetrics) : Nat :=
  let isHighEngagement := decide (metrics.interactions > 100 * max metrics.mentions 1)
  let isGoodRank := decide (metrics.altRank < 100)
  let isHealthy := decide (metrics.galaxyScore > 70)
  let hasGoodCreators := decide (metrics.creators > 1000)
  ([isHighEngagement, isGoodRank, isHealthy, hasGoodCreators].filter (· = true)).length

/-- `createFallbackSignal` (`src/lib/gemini.ts` lines 117-161): the
deterministic rule-based signal.  The dynamic numbers interpolated into
`reasoning` strings are not reproduced beyond the indicator count. -/
def createFallbackSignal (symbol : String) (metrics : SocialMetrics)
    (now : Nat) : TradingSignal :=
  let n := positiveSignals metrics
  let base : TradingSignal :=
    { id := symbol ++ "-" ++ toString now
      symbol := symbol
      signal := .HOLD
      confidence := 50
      reasoning := "Fallback analysis based on social metrics"
      metrics := metrics }
  if 3 ≤ n then
    { base with
        signal := .BUY
        confidence := 60 + n * 10
        reasoning := "Strong social signals: " ++ toString n ++ "/4 indicators positive." }
  else if n ≤ 1 then
    { base with
        signal := .SELL
        confidence := 60
        reasoning := "Weak social signals: only " ++ toString n ++ "/4 indicators positive." }
  else base

/-- `generateTradingSignal` (`src/lib/gemini.ts` lines 16-42).
`aiResult` stands for the whole `try` block (client construction, the
Gemini call, and `parseSignalResponse`): `.ok s` means it produced the
signal `s`, `.error ()` means any part of it threw; the `catch` then
returns the rule-based fallback, so the function itself never throws. -/
def generateTradingSignal (aiResult : Except Unit TradingSignal)
    (symbol : String) (metrics : SocialMetrics) (now : Nat) : TradingSignal :=
  match aiResult with
  | .ok s => s
  | .error _ => createFallbackSignal symbol metrics now

/-- The `generate-ai-signals` step (`signal-analysis.ts` lines 158-194):
filter to successful selections, score each concurrently with a per-item
`catch` mapping a failure to `null`, await all, drop the `null`s.
`score` is the per-item capability; `none` is a rejected promise. -/
def generateAiSignals (score : String → SocialMetrics → Option TradingSignal)
    (socialMetrics : List SelectedCoin) : List TradingSignal :=
  let successfulMetrics := socialMetrics.filter (fun r => r.success)
  (successfulMetrics.map (fun r => score r.symbol r.metrics)).filterMap id

/-- One element of the `save-to-database` step's return value
(`signal-analysis.ts` lines 222, 231). -/
structure SaveResult where
  symbol : String
  success : Bool
  deriving DecidableEq, Repr

/-- The `save-to-database` step (`signal-analysis.ts` lines 197-238):
insert each signal; a failed insert is caught per item and recorded as
`success := false`, never aborting the remaining writes.  `persist` is the
DB insert capability. -/
def saveToDatabase (persist : TradingSignal → Except Unit Unit)
    (tradingSignals : List TradingSignal) : List SaveResult :=
  tradingSignals.map (fun signal =>
    { symbol := signal.symbol
      success := match persist signal with | .ok _ => true | .error _ => false })

/-- One entry of `summary.topSignals` (`signal-analysis.ts` lines 266-271). -/
structure TopSignalEntry where
  symbol : String
  signal : SignalType
  confidence : Nat
  altRank : Int
  deriving DecidableEq, Repr

/-- `summary.distribution` (`signal-analysis.ts` lines 258-262). -/
structure Distribution where
  BUY : Nat
  SELL : Nat
  HOLD : Nat
  deriving DecidableEq, Repr

/-- The summary object built by `generate-summary`
(`signal-analysis.ts` lines 255-272). -/
structure Summary where
  totalAnalyzed : Nat
  highConfidence : Nat
  distribution : Distribution
  topSignals : List TopSignalEntry
  deriving DecidableEq, Repr

/-- Stable insertion by descending `confidence`: an element is placed
before the first strictly-less-confident element, after equal ones. -/
def insertByConfidence (s : TradingSignal) :
    List TradingSignal → List TradingSignal
  | [] => [s]
  | t :: ts =>
    if t.confidence ≤ s.confidence then s :: t :: ts
    else t :: insertByConfidence s ts

/-- The JS `Array.prototype.sort` call of `generate-summary` with
comparator `(a, b) => b.confidence - a.confidence` (`signal-analysis.ts`
line 264): a stable sort by descending confidence (ECMAScript guarantees
sort stability). -/
def sortByConfidenceDesc : List TradingSignal → List TradingSignal
  | [] => []
  | s :: ts => insertByConfidence s (sortByConfidenceDesc ts)

/-- The `generate-summary` step (`signal-analysis.ts` lines 241-277).
JS `sort` sorts the `tradingSignals` array IN PLACE and returns it; the
step therefore both produces the summary and leaves the shared
`tradingSignals` sequence reordered.  The pair returned here is
(summary, state of `tradingSignals` after the step). -/
def generateSummaryStep (tradingSignals : List TradingSignal) :
    Summary × List TradingSignal :=
  let highConfidenceSignals := tradingSignals.filter (fun s => 70 ≤ s.confidence)
  let buySignals := tradingSignals.filter (fun s => s.signal = .BUY)
  let sellSignals := tradingSignals.filter (fun s => s.signal = .SELL)
  let sorted := sortByConfidenceDesc tradingSignals
  ({ totalAnalyzed := tradingSignals.length,
     highConfidence := highConfidenceSignals.length,
     distribution :=
       { BUY := buySignals.length,
         SELL := sellSignals.length,
         HOLD := (tradingSignals.filter (fun s => s.signal = .HOLD)).length },
     topSignals := (sorted.take 3).map (fun s =>
       { symbol := s.symbol,
         signal := s.signal,
         confidence := s.confidence,
         altRank := s.metrics.altRank }) },
   sorted)

/-- The percentage computed by `updateProgress`
(`signal-analysis.ts` line 34): `Math.round((stepNumber / 7) * 100)`.
`Math.round x = ⌊x + 1/2⌋`, so over `Nat` this is `(200 * k + 7) / 14`. -/
def progressPercentage (stepNumber : Nat) : Nat :=
  (200 * stepNumber + 7) / 14

/-- The job record in the `analysis_jobs` table, restricted to the fields
the workflow writes (timestamps are not modelled).  Fields the initial
insert leaves unset are `Option`s. -/
structure JobRecord where
  status : String
  current_step : String
  step_message : String
  progress_percentage : Nat
  signals_generated : Option Nat
  alerts_generated : Option Nat
  duration_ms : Option Nat
  deriving DecidableEq, Repr

/-- The field update performed by one `updateProgress` call
(`signal-analysis.ts` lines 38-44): it unconditionally overwrites
`current_step`, `step_message`, `progress_percentage` and `status`,
with no check of the record's current status. -/
def applyProgressUpdate (job : JobRecord) (stepNumber : Nat)
    (stepName stepMessage status : String) : JobRecord :=
  { job with
      current_step := stepName
      step_message := stepMessage
      progress_percentage := progressPercentage stepNumber
      status := status }

/-- The record inserted by the `initialize-job` step
(`signal-analysis.ts` lines 64-73). -/
def initializeJobRecord : JobRecord :=
  { status := "started"
    current_step := "Initializing Analysis"
    step_message := "Setting up trading analysis pipeline..."
    progress_percentage := 14
    signals_generated := none
    alerts_generated := none
    duration_ms := none }

/-- The `complete-job` step (`signal-analysis.ts` lines 310-340):
`updateProgress(7, 'Analysis Complete', ..., 'completed')` followed by the
final statistics update, whose `signals_generated` is the number of SCORED
signals (`tradingSignals.length`), not the number persisted. -/
def completeJobRecord (job : JobRecord) (tradingSignals : List TradingSignal)
    (summary : Summary) (duration : Nat) : JobRecord :=
  let j := applyProgressUpdate job 7 "Analysis Complete"
    ("Generated " ++ toString tradingSignals.length ++ " trading signals.")
    "completed"
  { j with
      signals_generated := some tradingSignals.length
      alerts_generated := some summary.highConfidence
      duration_ms := some duration }

/-- The sequence of `updateProgress` calls of one successful run, as
`(stepNumber, status)` pairs, in program order (`signal-analysis.ts`
lines 91, 114, 148, 160, 187, 199, 224, 243, 287, 314):
one call before the candidate loop, one per candidate tested
(`numTested`), one after selection, two in the scoring step, one before
the save loop, one per successful save (`numSaves`), one in the summary
step, one in the notification step when any high-confidence signal
exists (`notified`), and the final `'completed'` call. -/
def runUpdates (numTested numSaves : Nat) (notified : Bool) :
    List (Nat × String) :=
  (2, "started") ::
    (List.replicate numTested (2, "started") ++
      (3, "started") :: (4, "started") :: (4, "started") :: (5, "started") ::
        (List.replicate numSaves (5, "started") ++
          (6, "started") ::
            (if notified then [(6, "started"), (7, "completed")]
             else [(7, "completed")])))

/-- The progress percentages written over one run: the hard-coded `14` of
the initial insert followed by the percentage of each update. -/
def progressTrace (numTested numSaves : Nat) (notified : Bool) : List Nat :=
  initializeJobRecord.progress_percentage ::
    (runUpdates numTested numSaves notified).map (fun u => progressPercentage u.1)

/-- The status values written over one run: `'started'` at the initial
insert followed by the status of each update. -/
def statusTrace (numTested numSaves : Nat) (notified : Bool) : List String :=
  initializeJobRecord.status ::
    (runUpdates numTested numSaves notified).map (fun u => u.2)

/-- A terminal job status per the lifecycle model. -/
def isTerminal (status : String) : Bool :=
  status = "completed" || status = "failed"

/-- A failed topic fetch as seen by `fetchTopicData`: a thrown request
error or a response without a `data` object. -/
def topicFetchFailed (r : Except Unit (Option TopicData)) : Prop :=
  r = .error () ∨ r = .ok none

/-- Example metrics used by concrete check inputs. -/
def exMetrics : SocialMetrics :=
  { symbol := "EX", mentions := 5, interactions := 10, creators := 2,
    altRank := 12, galaxyScore := 55 }

/-- Example scored result with a given symbol and confidence. -/
def exSignal (symbol : String) (confidence : Nat) : TradingSignal :=
  { id := symbol ++ "-0", symbol := symbol, signal := .HOLD,
    confidence := confidence, reasoning := "r", metrics := exMetrics }

/-- Three scored results for the partial-persistence scenario. -/
def exSignals3 : List TradingSignal :=
  [exSignal "a" 80, exSignal "b" 75, exSignal "c" 90]

/-- A persistence capability that fails for exactly the 2nd of
`exSignals3` (symbol "b") and succeeds otherwise. -/
def persistFailB : TradingSignal → Except Unit Unit :=
  fun s => if s.symbol = "b" then .error () else .ok ()

/-- Example candidate coins. -/
def coinA : TopCoin := { symbol := "COINA", altRank := 3, galaxyScore := 80 }

def coinB : TopCoin := { symbol := "COINB", altRank := 4, galaxyScore := 60 }

/-- Metrics with one strictly positive counter. -/
def goodMetrics : SocialMetrics :=
  { symbol := "COINA", mentions := 12, interactions := 0, creators := 0,
    altRank := 3, galaxyScore := 80 }

/-- A fetch capability that always succeeds with complete metrics. -/
def fetchGood : TopCoin → Except Unit SocialMetrics := fun _ => .ok goodMetrics

/-- A fetch capability that always succeeds with all-zero metrics. -/
def fetchZero : TopCoin → Except Unit SocialMetrics := fun c =>
  .ok { symbol := c.symbol, mentions := 0, interactions := 0, creators := 0,
        altRank := c.altRank, galaxyScore := c.galaxyScore }

/-- Three selected items (all with `success := true`, as the selector
always pushes). -/
def exSelected : List SelectedCoin :=
  [{ symbol := "a", metrics := exMetrics, success := true },
   { symbol := "b", metrics := exMetrics, success := true },
   { symbol := "c", metrics := exMetrics, success := true }]

/-- A scoring capability that fails for exactly the item with symbol "b". -/
def scoreFailB : String → SocialMetrics → Option TradingSignal :=
  fun s m => if s = "b" then none else some (createFallbackSignal s m 0)

/-- A job record already in the terminal `completed` status. -/
def terminalJob : JobRecord :=
  completeJobRecord initializeJobRecord []
    { totalAnalyzed := 0, highConfidence := 0,
      distribution := { BUY := 0, SELL := 0, HOLD := 0 }, topSignals := [] } 0

/-! ## Helper lemmas about the selection loop -/

theorem selectLoop_stop (fetch : TopCoin → Except Unit SocialMetrics)
    (cs : List TopCoin) (acc : List SelectedCoin) (h : 3 ≤ acc.length) :
    selectLoop fetch cs acc = acc := by
  cases cs with
  | nil => rfl
  | cons c rest => simp [selectLoop, h]

theorem selectLoop_extends (fetch : TopCoin → Except Unit SocialMetrics) :
    ∀ (cs : List TopCoin) (acc : List SelectedCoin),
      ∃ t, selectLoop fetch cs acc = acc ++ t := by
  intro cs
  induction cs with
  | nil => intro acc; exact ⟨[], by simp [selectLoop]⟩
  | cons c rest ih =>
    intro acc
    by_cases h : 3 ≤ acc.length
    · exact ⟨[], by simp [selectLoop, h]⟩
    · cases hf : fetch c with
      | error e =>
        obtain ⟨t, ht⟩ := ih acc
        exact ⟨t, by simp [selectLoop, h, hf, ht]⟩
      | ok m =>
        by_cases hc : isComplete m = true
        · obtain ⟨t, ht⟩ := ih (acc ++ [{ symbol := c.symbol, metrics := m, success := true }])
          exact ⟨{ symbol := c.symbol, metrics := m, success := true } :: t,
            by simp [selectLoop, h, hf, hc, ht]⟩
        · obtain ⟨t, ht⟩ := ih acc
          exact ⟨t, by simp [selectLoop, h, hf, hc, ht]⟩

theorem selectLoop_length_le (fetch : TopCoin → Except Unit SocialMetrics) :
    ∀ (cs : List TopCoin) (acc : List SelectedCoin),
      (selectLoop fetch cs acc).length ≤ max acc.length 3 := by
  intro cs
  induction cs with
  | nil => intro acc; simp [selectLoop]
  | cons c rest ih =>
    intro acc
    by_cases h : 3 ≤ acc.length
    · simp [selectLoop, h]
    · cases hf : fetch c with
      | error e => simpa [selectLoop, h, hf] using ih acc
      | ok m =>
        by_cases hc : isComplete m = true
        · have h1 := ih (acc ++ [{ symbol := c.symbol, metrics := m, success := true }])
          have h2 : max (acc ++ [({ symbol := c.symbol, metrics := m, success := true } : SelectedCoin)]).length 3 = 3 := by
            simp only [List.length_append, List.length_singleton]
            exact max_eq_right (by omega)
          have h3 : (3 : Nat) ≤ max acc.length 3 := le_max_right _ _
          simp only [selectLoop, h, hf, hc, if_false, if_true]
          calc (selectLoop fetch rest (acc ++ [{ symbol := c.symbol, metrics := m, success := true }])).length
              ≤ 3 := h2 ▸ h1
            _ ≤ max acc.length 3 := h3
        · simpa [selectLoop, h, hf, hc] using ih acc

theorem selectLoop_ne_nil (fetch : TopCoin → Except Unit SocialMetrics) :
    ∀ (cs : List TopCoin) (acc : List SelectedCoin),
      (∃ c ∈ cs, ∃ m, fetch c = .ok m ∧ isComplete m = true) →
      selectLoop fetch cs acc ≠ [] := by
  intro cs
  induction cs with
  | nil =>
    rintro acc ⟨c, hc, -⟩
    simp at hc
  | cons c rest ih =>
    rintro acc ⟨c', hc', m, hm, hcm⟩
    by_cases h : 3 ≤ acc.length
    · rw [selectLoop_stop fetch _ acc h]
      intro hnil
      rw [hnil] at h
      simp at h
    · rcases List.mem_cons.mp hc' with rfl | hmem
      · obtain ⟨t, ht⟩ := selectLoop_extends fetch rest
          (acc ++ [{ symbol := c'.symbol, metrics := m, success := true }])
        simp [selectLoop, h, hm, hcm, ht]
      · cases hf : fetch c with
        | error e =>
          simp only [selectLoop, h, if_false, hf]
          exact ih acc ⟨c', hmem, m, hm, hcm⟩
        | ok m2 =>
          by_cases hc2 : isComplete m2 = true
          · obtain ⟨t, ht⟩ := selectLoop_extends fetch rest
              (acc ++ [{ symbol := c.symbol, metrics := m2, success := true }])
            simp [selectLoop, h, hf, hc2, ht]
          · simp only [selectLoop, h, if_false, hf, hc2]
            exact ih acc ⟨c', hmem, m, hm, hcm⟩

theorem selectLoop_symbols_sublist (fetch : TopCoin → Except Unit SocialMetrics) :
    ∀ (cs : List TopCoin) (acc : List SelectedCoin),
      List.Sublist ((selectLoop fetch cs acc).map (fun r => r.symbol))
        (acc.map (fun r => r.symbol) ++ cs.map (fun c => c.symbol)) := by
  intro cs
  induction cs with
  | nil => intro acc; simp [selectLoop]
  | cons c rest ih =>
    intro acc
    by_cases h : 3 ≤ acc.length
    · rw [selectLoop_stop fetch _ acc h]
      exact List.sublist_append_left _ _
    · cases hf : fetch c with
      | error e =>
        have hsub : List.Sublist (acc.map (fun r => r.symbol) ++ rest.map (fun c => c.symbol))
            (acc.map (fun r => r.symbol) ++ (c :: rest).map (fun c => c.symbol)) := by
          simp only [List.map_cons]
          exact List.Sublist.append_left (List.sublist_cons_self _ _) _
        simp only [selectLoop, h, if_false, hf]
        exact (ih acc).trans hsub
      | ok m =>
        by_cases hc : isComplete m = true
        · simp only [selectLoop, h, if_false, hf, hc, if_true]
          have h2 := ih (acc ++ [{ symbol := c.symbol, metrics := m, success := true }])
          simp only [List.map_append, List.map_cons, List.map_nil,
            List.append_assoc, List.singleton_append] at h2
          exact h2
        · have hsub : List.Sublist (acc.map (fun r => r.symbol) ++ rest.map (fun c => c.symbol))
              (acc.map (fun r => r.symbol) ++ (c :: rest).map (fun c => c.symbol)) := by
            simp only [List.map_cons]
            exact List.Sublist.append_left (List.sublist_cons_self _ _) _
          simp only [selectLoop, h, if_false, hf, hc]
          exact (ih acc).trans hsub

theorem selectLoop_all_incomplete (fetch : TopCoin → Except Unit SocialMetrics) :
    ∀ (cs : List TopCoin),
      (∀ c ∈ cs, ∀ m, fetch c = .ok m → isComplete m = false) →
      ∀ acc, selectLoop fetch cs acc = acc := by
  intro cs
  induction cs with
  | nil => intro _ acc; rfl
  | cons c rest ih =>
    intro hall acc
    by_cases h : 3 ≤ acc.length
    · exact selectLoop_stop fetch _ acc h
    · cases hf : fetch c with
      | error e =>
        simp only [selectLoop, h, if_false, hf]
        exact ih (fun c' hc' => hall c' (List.mem_cons_of_mem _ hc')) acc
      | ok m =>
        have hm := hall c (List.mem_cons_self c rest) m hf
        simp only [selectLoop, h, if_false, hf, hm, Bool.false_eq_true]
        exact ih (fun c' hc' => hall c' (List.mem_cons_of_mem _ hc')) acc

/-! ## Claim theorems -/

/-- Claim C2: for every non-empty ordered candidate list and every fetch
capability such that at least one candidate's fetched metrics has a
strictly positive counter, the selection returns a non-empty sequence of
selected items whose length never exceeds the target of 3; candidates
are iterated in input order (the selected symbols form an
order-preserving sublist of the input symbols) and the loop stops as
soon as 3 complete items are accumulated. -/
theorem select_returns_nonempty_bounded
    (fetch : TopCoin → Except Unit SocialMetrics) (candidateCoins : List TopCoin)
    (hne : candidateCoins ≠ [])
    (hwit : ∃ c ∈ candidateCoins, ∃ m, fetch c = .ok m ∧ isComplete m = true) :
    (∀ cs acc, 3 ≤ acc.length → selectLoop fetch cs acc = acc) ∧
    ∃ res, selectAndFetchData fetch candidateCoins = .ok res ∧
      res ≠ [] ∧ res.length ≤ 3 ∧
      List.Sublist (res.map (fun r => r.symbol))
        (candidateCoins.map (fun c => c.symbol)) := by
  refine ⟨fun cs acc h => selectLoop_stop fetch cs acc h, ?_⟩
  have hres : selectLoop fetch candidateCoins [] ≠ [] :=
    selectLoop_ne_nil fetch candidateCoins [] hwit
  refine ⟨selectLoop fetch candidateCoins [], ?_, hres, ?_, ?_⟩
  · have h0 : ¬(candidateCoins.length = 0) := fun hh => hne (List.length_eq_zero.mp hh)
    have h1 : ¬((selectLoop fetch candidateCoins []).length = 0) :=
      fun hh => hres (List.length_eq_zero.mp hh)
    simp [selectAndFetchData, h0, h1]
  · simpa using selectLoop_length_le fetch candidateCoins []
  · simpa using selectLoop_symbols_sublist fetch candidateCoins []

/-- Witness for C2 at a concrete input. -/
theorem select_returns_nonempty_bounded_witness :
    (([coinA, coinB] : List TopCoin) ≠ [] ∧
      ∃ c ∈ [coinA, coinB], ∃ m, fetchGood c = .ok m ∧ isComplete m = true) ∧
    ((∀ cs acc, 3 ≤ acc.length → selectLoop fetchGood cs acc = acc) ∧
      ∃ res, selectAndFetchData fetchGood [coinA, coinB] = .ok res ∧
        res ≠ [] ∧ res.length ≤ 3 ∧
        List.Sublist (res.map (fun r => r.symbol))
          ([coinA, coinB].map (fun c => c.symbol))) := by
  have hne : ([coinA, coinB] : List TopCoin) ≠ [] := by simp
  have hwit : ∃ c ∈ [coinA, coinB], ∃ m, fetchGood c = .ok m ∧ isComplete m = true :=
    ⟨coinA, by simp, goodMetrics, rfl, by decide⟩
  exact ⟨⟨hne, hwit⟩, select_returns_nonempty_bounded fetchGood [coinA, coinB] hne hwit⟩

/-- Claim C3: for every (non-empty, per the component's input contract)
candidate list in which every fetched metrics record is all-zero, the
selection fails with the insufficient-data fatal error after exhausting
the input, selecting no candidates. -/
theorem select_all_zero_fails_insufficient
    (fetch : TopCoin → Except Unit SocialMetrics) (cs : List TopCoin)
    (hne : cs ≠ [])
    (hzero : ∀ c ∈ cs, ∃ m, fetch c = .ok m ∧
      m.mentions = 0 ∧ m.interactions = 0 ∧ m.creators = 0) :
    selectAndFetchData fetch cs = .error .insufficientData ∧
    selectLoop fetch cs [] = [] := by
  have hinc : ∀ c ∈ cs, ∀ m, fetch c = .ok m → isComplete m = false := by
    intro c hc m hm
    obtain ⟨m0, hm0, h1, h2, h3⟩ := hzero c hc
    have hmm : m = m0 := by
      have := hm.symm.trans hm0
      injection this
    subst hmm
    simp [isComplete, h1, h2, h3]
  have hloop : selectLoop fetch cs [] = [] := selectLoop_all_incomplete fetch cs hinc []
  constructor
  · have h0 : ¬(cs.length = 0) := fun hh => hne (List.length_eq_zero.mp hh)
    simp [selectAndFetchData, h0, hloop]
  · exact hloop

/-- Witness for C3 at a concrete input. -/
theorem select_all_zero_fails_insufficient_witness :
    (([coinA] : List TopCoin) ≠ [] ∧
      ∀ c ∈ [coinA], ∃ m, fetchZero c = .ok m ∧
        m.mentions = 0 ∧ m.interactions = 0 ∧ m.creators = 0) ∧
    (selectAndFetchData fetchZero [coinA] = .error .insufficientData ∧
      selectLoop fetchZero [coinA] [] = []) := by
  have hne : ([coinA] : List TopCoin) ≠ [] := by simp
  have hz : ∀ c ∈ [coinA], ∃ m, fetchZero c = .ok m ∧
      m.mentions = 0 ∧ m.interactions = 0 ∧ m.creators = 0 := by
    intro c hc
    exact ⟨_, rfl, rfl, rfl, rfl⟩
  exact ⟨⟨hne, hz⟩, select_all_zero_fails_insufficient fetchZero [coinA] hne hz⟩

theorem length_filterMap_add_length_failures {α β : Type} (f : α → Option β)
    (l : List α) :
    (l.filterMap f).length + (l.filter (fun a => (f a).isNone)).length = l.length := by
  induction l with
  | nil => rfl
  | cons a t ih =>
    cases hfa : f a with
    | none =>
      simp only [List.filterMap_cons, hfa, List.filter_cons, Option.isNone_none,
        if_true, List.length_cons]
      omega
    | some b =>
      simp only [List.filterMap_cons, hfa, List.filter_cons, Option.isNone_some,
        List.length_cons]
      simp only [Bool.false_eq_true, if_false]
      omega

/-- Claim C4: scoring a sequence of N selected items where the per-item
capability fails for exactly K of them yields exactly N−K results; the
fan-out is the per-item map `filterMap` (each item's outcome depends only
on its own scoring call, so one item's failure cannot affect another's
result), and the embedded step is total: no exception reaches the caller. -/
theorem score_fanout_isolated
    (score : String → SocialMetrics → Option TradingSignal)
    (items : List SelectedCoin)
    (hsucc : ∀ i ∈ items, i.success = true) :
    generateAiSignals score items =
      items.filterMap (fun i => score i.symbol i.metrics) ∧
    (generateAiSignals score items).length =
      items.length -
        (items.filter (fun i => (score i.symbol i.metrics).isNone)).length := by
  have hfilter : items.filter (fun r => r.success) = items :=
    List.filter_eq_self.mpr hsucc
  have heq : generateAiSignals score items =
      items.filterMap (fun i => score i.symbol i.metrics) := by
    unfold generateAiSignals
    rw [hfilter, List.filterMap_map]
    rfl
  refine ⟨heq, ?_⟩
  rw [heq]
  have := length_filterMap_add_length_failures
    (fun i => score i.symbol i.metrics) items
  omega

/-- Witness for C4 at a concrete input: three items, the second one's
scoring call fails. -/
theorem score_fanout_isolated_witness :
    (∀ i ∈ exSelected, i.success = true) ∧
    (generateAiSignals scoreFailB exSelected =
        exSelected.filterMap (fun i => scoreFailB i.symbol i.metrics) ∧
      (generateAiSignals scoreFailB exSelected).length =
        exSelected.length -
          (exSelected.filter (fun i => (scoreFailB i.symbol i.metrics).isNone)).length) :=
  ⟨by decide, score_fanout_isolated scoreFailB exSelected (by decide)⟩

/-- Claim C5: `generate-summary` of an empty result sequence has all
counts zero and an empty top list; on confidences [90, 40, 70, 95] the
top-3 is ordered [95, 90, 70]; a tie between two equal-confidence
results keeps their original fan-out order (stable sort). -/
theorem summarize_empty_and_top3 :
    (generateSummaryStep []).1 =
      { totalAnalyzed := 0, highConfidence := 0,
        distribution := { BUY := 0, SELL := 0, HOLD := 0 }, topSignals := [] } ∧
    ((generateSummaryStep
        [exSignal "a" 90, exSignal "b" 40, exSignal "c" 70,
          exSignal "d" 95]).1.topSignals.map (fun t => t.confidence)) =
      [95, 90, 70] ∧
    ((generateSummaryStep
        [exSignal "t1" 70, exSignal "t2" 70,
          exSignal "h" 90]).1.topSignals.map (fun t => t.symbol)) =
      ["h", "t1", "t2"] := by
  refine ⟨by decide, by decide, by decide⟩

theorem insertByConfidence_perm (s : TradingSignal) (l : List TradingSignal) :
    (insertByConfidence s l).Perm (s :: l) := by
  induction l with
  | nil => exact List.Perm.refl _
  | cons t ts ih =>
    by_cases h : t.confidence ≤ s.confidence
    · simp [insertByConfidence, h]
    · simp only [insertByConfidence, h, if_false]
      exact (ih.cons t).trans (List.Perm.swap s t ts)

theorem sortByConfidenceDesc_perm (l : List TradingSignal) :
    (sortByConfidenceDesc l).Perm l := by
  induction l with
  | nil => exact List.Perm.refl _
  | cons s ts ih =>
    exact (insertByConfidence_perm s (sortByConfidenceDesc ts)).trans (ih.cons s)

/-- Claim C8 (counterexample): `generate-summary` is NOT pure in the
claimed sense — the JS in-place `sort` reorders the shared
`tradingSignals` sequence: on input [confidence 40, confidence 90] the
sequence after the step differs from the input. -/
theorem summarize_mutates_input :
    (generateSummaryStep [exSignal "a" 40, exSignal "b" 90]).2 ≠
      [exSignal "a" 40, exSignal "b" 90] ∧
    (generateSummaryStep [exSignal "a" 40, exSignal "b" 90]).2 =
      [exSignal "b" 90, exSignal "a" 40] := by
  refine ⟨by decide, by decide⟩

/-- Claim C8 (amended): `generate-summary` computes the summary from its
input alone and modifies no state other than the input sequence itself,
which it sorts in place by confidence descending — the post-step sequence
is exactly the stable sort of the input, hence a permutation of it
(the multiset of elements is unchanged; only their order moves). -/
theorem summarize_only_reorders_input (sigs : List TradingSignal) :
    ((generateSummaryStep sigs).2).Perm sigs ∧
    (generateSummaryStep sigs).2 = sortByConfidenceDesc sigs :=
  ⟨sortByConfidenceDesc_perm sigs, rfl⟩

/-- Claim C9: `generateTradingSignal` never raises — when the AI
call/parse pipeline fails for any reason it returns the deterministic
rule-based fallback: BUY with confidence 60 + 10·n when n ≥ 3 of the 4
indicators are positive, SELL with confidence 60 when n ≤ 1, otherwise
HOLD with confidence 50. -/
theorem gemini_falls_back_deterministically :
    ∀ (symbol : String) (metrics : SocialMetrics) (now : Nat),
      generateTradingSignal (.error ()) symbol metrics now =
        createFallbackSignal symbol metrics now ∧
      (createFallbackSignal symbol metrics now).signal =
        (if 3 ≤ positiveSignals metrics then SignalType.BUY
         else if positiveSignals metrics ≤ 1 then SignalType.SELL
         else SignalType.HOLD) ∧
      (createFallbackSignal symbol metrics now).confidence =
        (if 3 ≤ positiveSignals metrics then 60 + 10 * positiveSignals metrics
         else if positiveSignals metrics ≤ 1 then 60 else 50) := by
  intro symbol metrics now
  refine ⟨rfl, ?_, ?_⟩
  · simp only [createFallbackSignal]
    split_ifs <;> rfl
  · simp only [createFallbackSignal]
    split_ifs <;> simp [Nat.mul_comm]

/-- Claim C1 (counterexample): with 3 scored results and the persistence
capability failing for exactly the 2nd, the Result Writer reports
per-item flags [true, false, true] and the job completes, but the
terminal record's `signals_generated` is NOT 2 (the persisted count):
the code stores `tradingSignals.length`, the scored count 3. -/
theorem signals_generated_not_persisted_count :
    ((saveToDatabase persistFailB exSignals3).map (fun r => r.success) =
      [true, false, true]) ∧
    (completeJobRecord initializeJobRecord exSignals3
        (generateSummaryStep exSignals3).1 1000).status = "completed" ∧
    ¬((completeJobRecord initializeJobRecord exSignals3
        (generateSummaryStep exSignals3).1 1000).signals_generated = some 2) := by
  refine ⟨by decide, by decide, by decide⟩

/-- Claim C1 (amended): in the same scenario the Result Writer reports
[true, false, true] and the job reaches `completed`, but
`signals_generated` equals 3, the number of scored results: the complete
step counts scored signals and ignores write failures (for any inputs,
the save step returns one success flag per signal in input order, the
complete step sets status `completed`, and `signals_generated` is always
the scored-result count, independent of the persistence capability). -/
theorem save_partial_failure_scored_count :
    ((saveToDatabase persistFailB exSignals3).map (fun r => r.success) =
      [true, false, true]) ∧
    (completeJobRecord initializeJobRecord exSignals3
        (generateSummaryStep exSignals3).1 1000).status = "completed" ∧
    (completeJobRecord initializeJobRecord exSignals3
        (generateSummaryStep exSignals3).1 1000).signals_generated = some 3 ∧
    ∀ (persist : TradingSignal → Except Unit Unit) (job : JobRecord)
      (sigs : List TradingSignal) (summary : Summary) (d : Nat),
      (saveToDatabase persist sigs).map (fun r => r.success) =
        sigs.map (fun s =>
          match persist s with | .ok _ => true | .error _ => false) ∧
      (completeJobRecord job sigs summary d).status = "completed" ∧
      (completeJobRecord job sigs summary d).signals_generated =
        some sigs.length := by
  refine ⟨by decide, by decide, by decide, ?_⟩
  intro persist job sigs summary d
  refine ⟨?_, rfl, rfl⟩
  unfold saveToDatabase
  rw [List.map_map]
  rfl

theorem chain_le_cons_replicate (a : Nat) (l : List Nat)
    (h : List.Chain' (· ≤ ·) (a :: l)) :
    ∀ n, List.Chain' (· ≤ ·) (a :: (List.replicate n a ++ l)) := by
  intro n
  induction n with
  | zero => simpa using h
  | succ k ih =>
    rw [List.replicate_succ, List.cons_append]
    exact List.chain'_cons.mpr ⟨le_refl a, ih⟩

theorem progressTrace_chain (numTested numSaves : Nat) (notified : Bool) :
    List.Chain' (· ≤ ·) (progressTrace numTested numSaves notified) := by
  cases notified with
  | false =>
    simp only [progressTrace, runUpdates, initializeJobRecord, if_false,
      List.map_cons, List.map_append, List.map_replicate, List.map_nil,
      Bool.false_eq_true]
    refine List.chain'_cons.mpr ⟨by decide, ?_⟩
    apply chain_le_cons_replicate
    refine List.chain'_cons.mpr ⟨by decide, ?_⟩
    refine List.chain'_cons.mpr ⟨by decide, ?_⟩
    refine List.chain'_cons.mpr ⟨by decide, ?_⟩
    refine List.chain'_cons.mpr ⟨by decide, ?_⟩
    apply chain_le_cons_replicate
    refine List.chain'_cons.mpr ⟨by decide, ?_⟩
    refine List.chain'_cons.mpr ⟨by decide, ?_⟩
    exact List.chain'_singleton _
  | true =>
    simp only [progressTrace, runUpdates, initializeJobRecord, if_true,
      List.map_cons, List.map_append, List.map_replicate, List.map_nil]
    refine List.chain'_cons.mpr ⟨by decide, ?_⟩
    apply chain_le_cons_replicate
    refine List.chain'_cons.mpr ⟨by decide, ?_⟩
    refine List.chain'_cons.mpr ⟨by decide, ?_⟩
    refine List.chain'_cons.mpr ⟨by decide, ?_⟩
    refine List.chain'_cons.mpr ⟨by decide, ?_⟩
    apply chain_le_cons_replicate
    refine List.chain'_cons.mpr ⟨by decide, ?_⟩
    refine List.chain'_cons.mpr ⟨by decide, ?_⟩
    refine List.chain'_cons.mpr ⟨by decide, ?_⟩
    exact List.chain'_singleton _

/-- Claim C6: the progress percentage written for phase k of 7 equals
round(100·k/7) for every phase number k ≤ 7 (in particular the
initialization insert's hard-coded 14 equals the formula at k = 1), and
the sequence of progress percentages written over a single run is
monotonically non-decreasing. -/
theorem progress_formula_and_monotone :
    (∀ k : Nat, k ≤ 7 →
      (progressPercentage k : Int) = round ((100 * (k : ℚ)) / 7)) ∧
    initializeJobRecord.progress_percentage = progressPercentage 1 ∧
    progressPercentage 1 = 14 ∧
    ∀ (numTested numSaves : Nat) (notified : Bool),
      List.Chain' (· ≤ ·) (progressTrace numTested numSaves notified) := by
  refine ⟨?_, by decide, by decide, progressTrace_chain⟩
  intro k hk
  interval_cases k <;> (rw [round_eq]; norm_num [progressPercentage])

/-- Witness for C6 at a concrete phase number. -/
theorem progress_formula_witness :
    (5 : Nat) ≤ 7 ∧
    (progressPercentage 5 : Int) = round ((100 * ((5 : Nat) : ℚ)) / 7) :=
  ⟨by decide, progress_formula_and_monotone.1 5 (by decide)⟩

/-- Claim C7 (counterexample): `updateProgress` has no terminal-status
guard — applied to a job already in the terminal status `completed`, it
is neither a no-op nor rejected: it overwrites the status back to
`started`. -/
theorem advance_after_terminal_overwrites :
    isTerminal terminalJob.status = true ∧
    applyProgressUpdate terminalJob 2 "Testing Coin Data" "checking" "started" ≠
      terminalJob ∧
    (applyProgressUpdate terminalJob 2 "Testing Coin Data" "checking"
      "started").status = "started" := by
  refine ⟨by decide, by decide, by decide⟩

theorem filter_isTerminal_replicate_started (n : Nat) (l : List String) :
    (List.replicate n "started" ++ l).filter isTerminal = l.filter isTerminal := by
  have hs : isTerminal "started" = false := by decide
  induction n with
  | zero => rfl
  | succ k ih =>
    rw [List.replicate_succ, List.cons_append, List.filter_cons]
    simp only [hs, Bool.false_eq_true, if_false]
    exact ih

/-- Claim C7 (amended): within every run the terminal status write is
exactly one — the final `'completed'` — and every status write before it
is non-terminal (`'started'`), so the status never transitions after
terminal within a run and no advance is applied after the terminal
write; however `updateProgress` itself has no terminal guard, so an
advance applied to an already-terminal record would overwrite it rather
than being a no-op or rejected. -/
theorem terminal_status_once_per_run (numTested numSaves : Nat) (notified : Bool) :
    (statusTrace numTested numSaves notified).filter isTerminal = ["completed"] ∧
    ∃ pre, statusTrace numTested numSaves notified = pre ++ ["completed"] ∧
      pre.filter isTerminal = [] := by
  have hs : isTerminal "started" = false := by decide
  have hc : isTerminal "completed" = true := by decide
  constructor
  · cases notified <;>
      simp [statusTrace, runUpdates, initializeJobRecord, List.filter_cons,
        List.filter_append, hs, hc, filter_isTerminal_replicate_started]
  · refine ⟨"started" :: "started" :: (List.replicate numTested "started" ++
      "started" :: "started" :: "started" :: "started" ::
        (List.replicate numSaves "started" ++
          ("started" :: (if notified then ["started"] else [])))), ?_, ?_⟩
    · cases notified <;>
        simp [statusTrace, runUpdates, initializeJobRecord, List.append_assoc]
    · cases notified <;>
        simp [List.filter_cons, List.filter_append, hs,
          filter_isTerminal_replicate_started]

/-- Claim C10: a failed topic fetch (a thrown request error or a
response without a data object) does not raise out of
`getSocialMetrics`; it yields a metrics record whose three counters are
all zero, which the completeness predicate rejects as absent data (the
selector receives an `.ok` result, so its zero-data skip branch runs,
not its per-candidate catch branch), and a run in which every topic
fetch fails terminates with the insufficient-data error. -/
theorem failed_fetch_zero_metrics_insufficient :
    (∀ (coin : TopCoin) (r : Except Unit (Option TopicData)),
      topicFetchFailed r →
        (getSocialMetrics coin r).mentions = 0 ∧
        (getSocialMetrics coin r).interactions = 0 ∧
        (getSocialMetrics coin r).creators = 0 ∧
        isComplete (getSocialMetrics coin r) = false) ∧
    ∀ (topicResp : TopCoin → Except Unit (Option TopicData)) (cs : List TopCoin),
      cs ≠ [] → (∀ c ∈ cs, topicFetchFailed (topicResp c)) →
      selectAndFetchData (fun c => .ok (getSocialMetrics c (topicResp c))) cs =
        .error .insufficientData := by
  have hzero : ∀ (coin : TopCoin) (r : Except Unit (Option TopicData)),
      topicFetchFailed r →
        (getSocialMetrics coin r).mentions = 0 ∧
        (getSocialMetrics coin r).interactions = 0 ∧
        (getSocialMetrics coin r).creators = 0 ∧
        isComplete (getSocialMetrics coin r) = false := by
    intro coin r hr
    rcases hr with rfl | rfl <;> exact ⟨rfl, rfl, rfl, rfl⟩
  refine ⟨hzero, ?_⟩
  intro topicResp cs hne hall
  have hinc : ∀ c ∈ cs, ∀ m,
      (fun c => Except.ok (ε := Unit) (getSocialMetrics c (topicResp c))) c = .ok m →
      isComplete m = false := by
    intro c hc m hm
    have hmm : getSocialMetrics c (topicResp c) = m := by
      injection hm
    rw [← hmm]
    exact (hzero c _ (hall c hc)).2.2.2
  have hloop := selectLoop_all_incomplete _ cs hinc []
  have h0 : ¬(cs.length = 0) := fun hh => hne (List.length_eq_zero.mp hh)
  simp [selectAndFetchData, h0, hloop]

/-- Witness for C10 at a concrete input. -/
theorem failed_fetch_zero_metrics_insufficient_witness :
    topicFetchFailed (.error () : Except Unit (Option TopicData)) ∧
    (([coinA] : List TopCoin) ≠ []) ∧
    ((getSocialMetrics coinA (.error ())).mentions = 0 ∧
      (getSocialMetrics coinA (.error ())).interactions = 0 ∧
      (getSocialMetrics coinA (.error ())).creators = 0 ∧
      isComplete (getSocialMetrics coinA (.error ())) = false) ∧
    selectAndFetchData
      (fun c => .ok (getSocialMetrics c
        ((fun _ => .error ()) c))) [coinA] = .error .insufficientData := by
  have hfail : topicFetchFailed (.error () : Except Unit (Option TopicData)) :=
    Or.inl rfl
  exact ⟨hfail, by simp,
    failed_fetch_zero_metrics_insufficient.1 coinA (.error ()) hfail,
    failed_fetch_zero_metrics_insufficient.2
      (fun _ => .error ()) [coinA] (by simp) (fun c _ => hfail)⟩

end SignalAnalysis
